import Mathlib

/-!
Verification of `context-as-a-service/infrastructure/agentgateway/crates/core/src/version.rs`.

The file embeds the provenance component: the six compile-time constants
captured with `env!`, the `BuildInfo` record, its constructor `BuildInfo::new`,
the derived `serde::Serialize` and `Default` impls, and the `Display` impl.
Rust string values become Lean `String`; the build environment becomes a map
from variable names to optional values, and the build-time resolution of the
six `env!` invocations is a function that fails (no artifact) when a variable
is absent, mirroring the compile error `env!` raises in that case.
-/

/-- Names of the six build-time environment variables read by the `env!`
invocations at the top of version.rs, in source order. -/
def buildInputNames : List String :=
  ["MCPGW_BUILD_buildVersion", "MCPGW_BUILD_buildGitRevision",
    "MCPGW_BUILD_buildStatus", "MCPGW_BUILD_buildTag",
    "MCPGW_BUILD_RUSTC_VERSION", "MCPGW_BUILD_PROFILE_NAME"]

/-- The six compile-time constants of version.rs (BUILD_VERSION,
BUILD_GIT_REVISION, BUILD_STATUS, BUILD_TAG, BUILD_RUST_VERSION,
BUILD_RUST_PROFILE), as resolved by the `env!` invocations, in source order. -/
structure BuildConsts where
  BUILD_VERSION : String
  BUILD_GIT_REVISION : String
  BUILD_STATUS : String
  BUILD_TAG : String
  BUILD_RUST_VERSION : String
  BUILD_RUST_PROFILE : String
  deriving DecidableEq

/-- Build-time resolution of the six `env!` invocations. `env!` aborts
compilation when its variable is undefined, so resolution yields `none`
(build failure, no artifact) unless every one of the six variables is
present; an empty-string value is an ordinary successful capture. -/
def resolveBuildConsts (e : String → Option String) : Option BuildConsts := do
  let v ← e "MCPGW_BUILD_buildVersion"
  let gr ← e "MCPGW_BUILD_buildGitRevision"
  let bs ← e "MCPGW_BUILD_buildStatus"
  let bt ← e "MCPGW_BUILD_buildTag"
  let rv ← e "MCPGW_BUILD_RUSTC_VERSION"
  let bp ← e "MCPGW_BUILD_PROFILE_NAME"
  pure ⟨v, gr, bs, bt, rv, bp⟩

/-- The `BuildInfo` struct of version.rs, six `String` fields in declaration
order. -/
structure BuildInfo where
  version : String
  git_revision : String
  rust_version : String
  build_profile : String
  build_status : String
  git_tag : String
  deriving DecidableEq

/-- `BuildInfo::new`: builds the record from the embedded compile-time
constants, field by field as in the source (version from BUILD_VERSION,
git_revision from BUILD_GIT_REVISION, rust_version from BUILD_RUST_VERSION,
build_profile from BUILD_RUST_PROFILE, build_status from BUILD_STATUS,
git_tag from BUILD_TAG). -/
def BuildInfo.new (c : BuildConsts) : BuildInfo where
  version := c.BUILD_VERSION
  git_revision := c.BUILD_GIT_REVISION
  rust_version := c.BUILD_RUST_VERSION
  build_profile := c.BUILD_RUST_PROFILE
  build_status := c.BUILD_STATUS
  git_tag := c.BUILD_TAG

/-- `BuildInfo::new` as invoked inside a launched process: the process
environment is in scope at launch, but the body of `new` reads only the
constants embedded at compile time (`env!` is resolved during compilation,
not at runtime), so the launch environment argument is not consulted. -/
def BuildInfo.newAtLaunch (c : BuildConsts)
    (_renv : String → Option String) : BuildInfo :=
  BuildInfo.new c

/-- The `Display` impl of version.rs. The `write!` macro expands to the
literal pieces of its format string interleaved with the arguments in the
order given at the call site: rust_version, build_profile, build_status,
git_tag, version, git_revision. `\x7b` and `\x7d` denote the literal brace
characters written `{{` and `}}` in the Rust format string. -/
def BuildInfo.format (b : BuildInfo) : String :=
  "version.BuildInfo\x7bRustVersion:\"" ++ b.rust_version ++
    "\", BuildProfile:\"" ++ b.build_profile ++
    "\", BuildStatus:\"" ++ b.build_status ++
    "\", GitTag:\"" ++ b.git_tag ++
    "\", Version:\"" ++ b.version ++
    "\", GitRevision:\"" ++ b.git_revision ++ "\"\x7d"

/-- Result of `Display::fmt`, which in Rust returns `fmt::Result`. The body
is a single `write!`; its only error source is the underlying formatter
sink, and rendering the record itself has no failure site, so the embedded
computation always returns `ok` with the rendered text. -/
def BuildInfo.fmtResult (b : BuildInfo) : Except Unit String :=
  Except.ok b.format

/-- The derived `serde::Serialize` impl: a struct serializer receives the
six field name/value pairs in declaration order, values being the raw field
strings. -/
def BuildInfo.serialize (b : BuildInfo) : List (String × String) :=
  [("version", b.version), ("git_revision", b.git_revision),
    ("rust_version", b.rust_version), ("build_profile", b.build_profile),
    ("build_status", b.build_status), ("git_tag", b.git_tag)]

/-- The derived `Default` impl of `BuildInfo`: every `String` field takes
the `String` default, the empty string. -/
def BuildInfo.default : BuildInfo where
  version := ""
  git_revision := ""
  rust_version := ""
  build_profile := ""
  build_status := ""
  git_tag := ""

/-- Spec-side template of section 4.1 operation 3, stated from the words of
the spec: the fixed single-line text with each placeholder replaced by the
corresponding field value, fields in the order RustVersion, BuildProfile,
BuildStatus, GitTag, Version, GitRevision. -/
def formatSpecTemplate (rust_version build_profile build_status git_tag
    version git_revision : String) : String :=
  "version.BuildInfo\x7bRustVersion:\"" ++ rust_version ++
    "\", BuildProfile:\"" ++ build_profile ++
    "\", BuildStatus:\"" ++ build_status ++
    "\", GitTag:\"" ++ git_tag ++
    "\", Version:\"" ++ version ++
    "\", GitRevision:\"" ++ git_revision ++ "\"\x7d"

/-- Scenario S1 build environment from the spec: all six variables present
with the sample values. -/
def envS1 : String → Option String := fun n =>
  if n = "MCPGW_BUILD_buildVersion" then some "1.2.3"
  else if n = "MCPGW_BUILD_buildGitRevision" then some "abcdef0"
  else if n = "MCPGW_BUILD_buildStatus" then some "Clean"
  else if n = "MCPGW_BUILD_buildTag" then some "v1.2.3"
  else if n = "MCPGW_BUILD_RUSTC_VERSION" then some "rustc 1.75.0"
  else if n = "MCPGW_BUILD_PROFILE_NAME" then some "release"
  else none

/-- The S1 constants as a record. -/
def constsS1 : BuildConsts :=
  ⟨"1.2.3", "abcdef0", "Clean", "v1.2.3", "rustc 1.75.0", "release"⟩

/-- Scenario S3 record: the version field carries an embedded double
quote. -/
def infoS3 : BuildInfo where
  version := "1.0\"rc\""
  git_revision := "abcdef0"
  rust_version := "rustc 1.75.0"
  build_profile := "release"
  build_status := "Clean"
  git_tag := "v1.2.3"

/-- A build environment in which MCPGW_BUILD_buildTag is absent and the
other variables are present. -/
def envMissingTag : String → Option String := fun n =>
  if n = "MCPGW_BUILD_buildTag" then none else some "x"

/-- C1: for every BuildInfo, `format` produces exactly the single-line
template of section 4.1 operation 3 — punctuation, spacing, and the fixed
field order RustVersion, BuildProfile, BuildStatus, GitTag, Version,
GitRevision included — with each placeholder replaced by the field value. -/
theorem format_matches_template (b : BuildInfo) :
    b.format =
      formatSpecTemplate b.rust_version b.build_profile b.build_status
        b.git_tag b.version b.git_revision := rfl

/-- C2: when resolution of the six build-time variables succeeds, each field
of the record returned by `BuildInfo::new` equals, byte for byte, the
literal string held by its corresponding variable (version from
MCPGW_BUILD_buildVersion, git_revision from MCPGW_BUILD_buildGitRevision,
rust_version from MCPGW_BUILD_RUSTC_VERSION, build_profile from
MCPGW_BUILD_PROFILE_NAME, build_status from MCPGW_BUILD_buildStatus,
git_tag from MCPGW_BUILD_buildTag). -/
theorem new_captures_inputs (e : String → Option String) (c : BuildConsts)
    (h : resolveBuildConsts e = some c) (s : String) :
    (e "MCPGW_BUILD_buildVersion" = some s → (BuildInfo.new c).version = s) ∧
    (e "MCPGW_BUILD_buildGitRevision" = some s →
      (BuildInfo.new c).git_revision = s) ∧
    (e "MCPGW_BUILD_RUSTC_VERSION" = some s →
      (BuildInfo.new c).rust_version = s) ∧
    (e "MCPGW_BUILD_PROFILE_NAME" = some s →
      (BuildInfo.new c).build_profile = s) ∧
    (e "MCPGW_BUILD_buildStatus" = some s →
      (BuildInfo.new c).build_status = s) ∧
    (e "MCPGW_BUILD_buildTag" = some s → (BuildInfo.new c).git_tag = s) := by
  obtain ⟨cv, cgr, cbs, cbt, crv, cbp⟩ := c
  cases h1 : e "MCPGW_BUILD_buildVersion" <;>
    cases h2 : e "MCPGW_BUILD_buildGitRevision" <;>
    cases h3 : e "MCPGW_BUILD_buildStatus" <;>
    cases h4 : e "MCPGW_BUILD_buildTag" <;>
    cases h5 : e "MCPGW_BUILD_RUSTC_VERSION" <;>
    cases h6 : e "MCPGW_BUILD_PROFILE_NAME" <;>
    simp_all [resolveBuildConsts, BuildInfo.new]

/-- C2 witness: in the S1 environment the version field of the constructed
record captures the literal 1.2.3. -/
theorem new_captures_inputs_witness :
    (BuildInfo.new constsS1).version = "1.2.3" :=
  (new_captures_inputs envS1 constsS1 (by decide) "1.2.3").1 (by decide)

/-- C3: `serialize` emits exactly the key set version, git_revision,
rust_version, build_profile, build_status, git_tag — no other keys — and
each value is the raw captured field string. -/
theorem serialize_key_set (b : BuildInfo) :
    b.serialize.map Prod.fst =
        ["version", "git_revision", "rust_version", "build_profile",
          "build_status", "git_tag"] ∧
      ("version", b.version) ∈ b.serialize ∧
      ("git_revision", b.git_revision) ∈ b.serialize ∧
      ("rust_version", b.rust_version) ∈ b.serialize ∧
      ("build_profile", b.build_profile) ∈ b.serialize ∧
      ("build_status", b.build_status) ∈ b.serialize ∧
      ("git_tag", b.git_tag) ∈ b.serialize := by
  simp [BuildInfo.serialize]

/-- C4: any string held by one of the six fields — empty, whitespace-only,
containing quotes or braces included — appears unchanged among the values
of `serialize` and verbatim, unescaped, inside the `format` output. -/
theorem field_opacity (b : BuildInfo) (s : String)
    (h : s = b.version ∨ s = b.git_revision ∨ s = b.rust_version ∨
      s = b.build_profile ∨ s = b.build_status ∨ s = b.git_tag) :
    s ∈ b.serialize.map Prod.snd ∧ ∃ p q, b.format = p ++ s ++ q := by
  rcases h with h | h | h | h | h | h <;> subst h <;>
    refine ⟨by simp [BuildInfo.serialize], ?_⟩
  · exact ⟨"version.BuildInfo\x7bRustVersion:\"" ++ b.rust_version ++
      "\", BuildProfile:\"" ++ b.build_profile ++ "\", BuildStatus:\"" ++
      b.build_status ++ "\", GitTag:\"" ++ b.git_tag ++ "\", Version:\"",
      "\", GitRevision:\"" ++ b.git_revision ++ "\"\x7d",
      by simp [BuildInfo.format, String.append_assoc]⟩
  · exact ⟨"version.BuildInfo\x7bRustVersion:\"" ++ b.rust_version ++
      "\", BuildProfile:\"" ++ b.build_profile ++ "\", BuildStatus:\"" ++
      b.build_status ++ "\", GitTag:\"" ++ b.git_tag ++ "\", Version:\"" ++
      b.version ++ "\", GitRevision:\"", "\"\x7d",
      by simp [BuildInfo.format, String.append_assoc]⟩
  · exact ⟨"version.BuildInfo\x7bRustVersion:\"",
      "\", BuildProfile:\"" ++ b.build_profile ++ "\", BuildStatus:\"" ++
      b.build_status ++ "\", GitTag:\"" ++ b.git_tag ++ "\", Version:\"" ++
      b.version ++ "\", GitRevision:\"" ++ b.git_revision ++ "\"\x7d",
      by simp [BuildInfo.format, String.append_assoc]⟩
  · exact ⟨"version.BuildInfo\x7bRustVersion:\"" ++ b.rust_version ++
      "\", BuildProfile:\"",
      "\", BuildStatus:\"" ++ b.build_status ++ "\", GitTag:\"" ++
      b.git_tag ++ "\", Version:\"" ++ b.version ++ "\", GitRevision:\"" ++
      b.git_revision ++ "\"\x7d",
      by simp [BuildInfo.format, String.append_assoc]⟩
  · exact ⟨"version.BuildInfo\x7bRustVersion:\"" ++ b.rust_version ++
      "\", BuildProfile:\"" ++ b.build_profile ++ "\", BuildStatus:\"",
      "\", GitTag:\"" ++ b.git_tag ++ "\", Version:\"" ++ b.version ++
      "\", GitRevision:\"" ++ b.git_revision ++ "\"\x7d",
      by simp [BuildInfo.format, String.append_assoc]⟩
  · exact ⟨"version.BuildInfo\x7bRustVersion:\"" ++ b.rust_version ++
      "\", BuildProfile:\"" ++ b.build_profile ++ "\", BuildStatus:\"" ++
      b.build_status ++ "\", GitTag:\"",
      "\", Version:\"" ++ b.version ++ "\", GitRevision:\"" ++
      b.git_revision ++ "\"\x7d",
      by simp [BuildInfo.format, String.append_assoc]⟩

/-- C4 witness: the S3 version value containing a double quote appears
unchanged in both the serialized values and the formatted line. -/
theorem field_opacity_witness :
    "1.0\"rc\"" ∈ infoS3.serialize.map Prod.snd ∧
      ∃ p q, infoS3.format = p ++ "1.0\"rc\"" ++ q :=
  field_opacity infoS3 "1.0\"rc\"" (Or.inl rfl)

/-- C5: `serialize` and `format` are deterministic pure functions of the six
fields: any two records agreeing on all six fields — in particular two
records constructed from identical build-time inputs, or one record rendered
repeatedly — give byte-identical outputs. -/
theorem outputs_deterministic (a b : BuildInfo)
    (h1 : a.version = b.version) (h2 : a.git_revision = b.git_revision)
    (h3 : a.rust_version = b.rust_version)
    (h4 : a.build_profile = b.build_profile)
    (h5 : a.build_status = b.build_status) (h6 : a.git_tag = b.git_tag) :
    a.format = b.format ∧ a.serialize = b.serialize := by
  obtain ⟨⟩ := a
  obtain ⟨⟩ := b
  simp_all [BuildInfo.format, BuildInfo.serialize]

/-- C5 witness: two constructions from the S1 inputs render identically. -/
theorem outputs_deterministic_witness :
    (BuildInfo.new constsS1).format = (BuildInfo.new constsS1).format ∧
      (BuildInfo.new constsS1).serialize =
        (BuildInfo.new constsS1).serialize :=
  outputs_deterministic (BuildInfo.new constsS1) (BuildInfo.new constsS1)
    rfl rfl rfl rfl rfl rfl

/-- C6: the record produced at launch depends only on the constants embedded
at build time: any two runtime process environments yield the same record,
namely the one `BuildInfo::new` builds from the embedded constants. -/
theorem launch_env_noninterference (c : BuildConsts)
    (r1 r2 : String → Option String) :
    BuildInfo.newAtLaunch c r1 = BuildInfo.newAtLaunch c r2 ∧
      BuildInfo.newAtLaunch c r1 = BuildInfo.new c :=
  ⟨rfl, rfl⟩

/-- C7: at runtime every operation is total and effect-free: construction
always yields a record, the `Display` rendering always returns ok (no error,
no panic), and `serialize` always yields its six pairs. -/
theorem operations_total (c : BuildConsts) (b : BuildInfo) :
    BuildInfo.new c = BuildInfo.new c ∧
      (∃ s, b.fmtResult = Except.ok s) ∧ b.serialize.length = 6 :=
  ⟨rfl, ⟨b.format, rfl⟩, rfl⟩

/-- C8: absence of any one of the six build-time variables makes resolution
fail, producing no constants and hence no artifact; by contrast an
environment where every variable holds the empty string resolves
successfully to six empty captures. -/
theorem missing_input_fails_build (e : String → Option String) (n : String)
    (hmem : n ∈ buildInputNames) (habs : e n = none) :
    resolveBuildConsts e = none ∧
      resolveBuildConsts (fun _ => some "") =
        some ⟨"", "", "", "", "", ""⟩ := by
  refine ⟨?_, rfl⟩
  fin_cases hmem <;>
    cases h1 : e "MCPGW_BUILD_buildVersion" <;>
    cases h2 : e "MCPGW_BUILD_buildGitRevision" <;>
    cases h3 : e "MCPGW_BUILD_buildStatus" <;>
    cases h4 : e "MCPGW_BUILD_buildTag" <;>
    cases h5 : e "MCPGW_BUILD_RUSTC_VERSION" <;>
    cases h6 : e "MCPGW_BUILD_PROFILE_NAME" <;>
    simp_all [resolveBuildConsts]

/-- C8 witness: with MCPGW_BUILD_buildTag absent, resolution fails; with all
six variables empty, resolution succeeds with empty captures. -/
theorem missing_input_fails_build_witness :
    resolveBuildConsts envMissingTag = none ∧
      resolveBuildConsts (fun _ => some "") =
        some ⟨"", "", "", "", "", ""⟩ :=
  missing_input_fails_build envMissingTag "MCPGW_BUILD_buildTag"
    (by decide) (by decide)

/-- C9: two BuildInfo records are value-equal exactly when all six fields
agree. -/
theorem value_equality_iff_fields (a b : BuildInfo) :
    a = b ↔
      (a.version = b.version ∧ a.git_revision = b.git_revision ∧
        a.rust_version = b.rust_version ∧
        a.build_profile = b.build_profile ∧
        a.build_status = b.build_status ∧ a.git_tag = b.git_tag) := by
  constructor
  · intro h
    subst h
    exact ⟨rfl, rfl, rfl, rfl, rfl, rfl⟩
  · rintro ⟨h1, h2, h3, h4, h5, h6⟩
    obtain ⟨⟩ := a
    obtain ⟨⟩ := b
    simp_all

/-- C10: the derived Default yields a record whose six fields are all the
empty string — independent of any embedded constants — so its formatted line
is the all-empty template, not the provenance of the compiled binary. -/
theorem default_all_empty :
    BuildInfo.default.version = "" ∧ BuildInfo.default.git_revision = "" ∧
      BuildInfo.default.rust_version = "" ∧
      BuildInfo.default.build_profile = "" ∧
      BuildInfo.default.build_status = "" ∧
      BuildInfo.default.git_tag = "" ∧
      BuildInfo.default.format =
        "version.BuildInfo\x7bRustVersion:\"\", BuildProfile:\"\", BuildStatus:\"\", GitTag:\"\", Version:\"\", GitRevision:\"\"\x7d" := by
  refine ⟨rfl, rfl, rfl, rfl, rfl, rfl, by decide⟩
